import Mathlib

/-!
Verification of the `remote_rxd` server core against its specification.

The Python source under `src/server/src` is shallowly embedded: each Lean
definition below mirrors one Python function or class, keeping the source
names where Lean allows it.  Machine integers are modelled as `Nat`/`Int`
(HTTP status codes and page arithmetic never overflow), Python exceptions
become `Except`, and Python dicts become association lists.
-/

/-- Python error-detail payloads: either a dict (association list) or a raw
(non-dict) object such as `IntegrityError.orig`, stringified here. -/
inductive ErrorDetail where
  | dict (entries : List (String × String))
  | raw (msg : String)
  deriving DecidableEq, Repr

/-- The exception kinds distinguished by `CatcherExceptionsMiddleware.dispatch`
(src/server/src/core/middlewares/catcher.py): FastAPI `HTTPException`,
SQLAlchemy `NoResultFound`, `IntegrityError` (whose `orig` may be a
`ForeignKeyViolation` carrying a table name), the application hierarchy
`BaseAppException` (carrying `error_key`, `status_code`, `to_dict()` payload
and message), and any other exception. -/
inductive Exn where
  | httpExc (statusCode : Nat) (detail : String)
  | noResultFound (msg : String)
  | integrityError (isForeignKey : Bool) (tableName : String) (origMsg : String)
  | appExc (errorKey : String) (statusCode : Nat)
      (toDict : List (String × String)) (msg : String)
  | other (msg : String)
  deriving DecidableEq, Repr

/-- Python `str(e)` for each modelled exception kind.  Starlette's
`HTTPException.__str__` is `f"{status_code}: {detail}"`; `NoResultFound` and
generic exceptions stringify to their message; `BaseAppException.__str__`
stringifies `to_dict()`, abstracted here by the stored message. -/
def strOfExn : Exn → String
  | .httpExc c d => toString c ++ ": " ++ d
  | .noResultFound m => m
  | .integrityError _ _ m => m
  | .appExc _ _ _ m => m
  | .other m => m

/-- `EnvelopeResponse` (src/server/src/core/utils/responses.py), generic in
the body payload type. -/
structure EnvelopeResponse (β : Type) where
  errors : Option ErrorDetail
  message : String
  status_code : Nat
  successful : Bool
  body : Option β
  deriving DecidableEq, Repr

/-- `EnvelopeResponseBody` (responses.py): `{links, count, results}`, generic
in the links and result-row payload types. -/
structure EnvelopeResponseBody (Λ ρ : Type) where
  links : Option Λ
  count : Option Nat
  results : Option (List ρ)
  deriving DecidableEq, Repr

/-- `create_envelope_response` (responses.py lines 46-61): always builds the
body dict from `links`/`count`/`data` and always sets `errors=None`; the
defaults are `message="INTERNAL_SERVER_ERROR"`, `status_code=500`,
`successful=False`. -/
def create_envelope_response {Λ ρ : Type} (data : Option (List ρ))
    (links : Option Λ := none) (count : Option Nat := none)
    (message : String := "INTERNAL_SERVER_ERROR")
    (status_code : Nat := 500) (successful : Bool := false) :
    EnvelopeResponse (EnvelopeResponseBody Λ ρ) :=
  { errors := none
    body := some { links := links, count := count, results := data }
    message := message
    status_code := status_code
    successful := successful }

/-- `CatcherExceptionsMiddleware.dispatch` exception branch (catcher.py lines
20-48), translated statement by statement.  The first `isinstance(e,
HTTPException)` test is an `if` (not `elif`) followed by a second
`if`/`elif`/`elif`/`else` chain, so its assignment is overwritten by whichever
branch of the second chain fires; for an `HTTPException` that is the final
`else`.  Returns the final `(error_detail, status_code, message)` wrapped in
the envelope with `body=None`, `successful=False`. -/
def dispatch (e : Exn) : EnvelopeResponse (EnvelopeResponseBody Unit Unit) :=
  -- first statement: `if isinstance(e, HTTPException): ...` (kept for
  -- faithfulness; its result is dead because of the chain below)
  let _first : Option (ErrorDetail × Nat) :=
    match e with
    | .httpExc c d => some (.dict [("detail", d)], c)
    | _ => none
  -- second statement: `if NoResultFound / elif IntegrityError /
  -- elif BaseAppException / else` — always (re)assigns detail and status
  let result : ErrorDetail × Nat × String :=
    match e with
    | .noResultFound m => (.dict [("detail", "No found: " ++ m)], 404, strOfExn e)
    | .integrityError isFK table origMsg =>
        if isFK then
          (.dict [(table, "ForeignKeyViolation: " ++ table)], 409,
            "ForeignKeyViolation: " ++ table)
        else (.raw origMsg, 500, strOfExn e)
    | .appExc _ code d _ => (.dict d, code, strOfExn e)
    | _ => (.dict [("detail", strOfExn e)], 500, strOfExn e)
  { errors := some result.1
    body := none
    message := result.2.2
    status_code := result.2.1
    successful := false }

/-! ## Filter manager (src/server/src/core/utils/filters.py) -/

/-- Python `key.replace("-", "", 1)`: removes the first `-` character
anywhere in the string (not only a leading one). -/
def removeFirstDash (s : String) : String :=
  let rec go : List Char → List Char
    | [] => []
    | c :: cs => if c = '-' then cs else c :: go cs
  String.mk (go s.data)

/-- What the specification describes: strip a leading `-` descending marker
(only when it is the first character), leaving other strings unchanged.
Stated from the spec's words to compare with `removeFirstDash`. -/
def stripLeadingDash (s : String) : String :=
  match s.data with
  | '-' :: rest => String.mk rest
  | _ => s

/-- Payload of `FilterException` (src/server/src/core/utils/exceptions.py
lines 46-56): the invalid ordering keys and the model's valid column keys;
its `status_code` is 400. -/
structure FilterExceptionPayload where
  invalid_keys : List String
  valid_keys : List String
  deriving DecidableEq, Repr

/-- `FilterException.to_dict`: the dict comprehension
`{value: f"Choose one of {valid_keys}" for value in invalid_keys}` — a Python
dict keeps the first occurrence of each key, so duplicates collapse. -/
def FilterException_to_dict (p : FilterExceptionPayload) : List (String × String) :=
  p.invalid_keys.eraseDups.map fun k => (k, "Choose one of " ++ toString p.valid_keys)

/-- Loop body of `ManagerFilter.clean_order_by_keys` (filters.py lines
31-38): drop the first `-` of the key; an empty result is skipped
(`continue`); membership in the model's column keys sorts the original key
into the cleaned list (`acc.1`) or the invalid list (`acc.2`). -/
def clean_order_by_step (valid_keys : List String)
    (acc : List String × List String) (key : String) : List String × List String :=
  let clean_key := removeFirstDash key
  if clean_key = "" then acc
  else if clean_key ∈ valid_keys then (acc.1 ++ [key], acc.2)
  else (acc.1, acc.2 ++ [key])

/-- The loop of `clean_order_by_keys` accumulates `(cleaned_data, invalid_keys)`
via `clean_order_by_step`; afterwards `if invalid_keys: raise FilterException`. -/
def clean_order_by_keys (valid_keys : List String) (ordering_keys : List String) :
    Except FilterExceptionPayload (List String) :=
  let pair := ordering_keys.foldl (clean_order_by_step valid_keys) ([], [])
  if pair.2 = [] then .ok pair.1 else .error ⟨pair.2, valid_keys⟩

/-- SQLAlchemy comparison expressions produced by
`ManagerFilter.get_unary_expressions`, one constructor per recognized
operator, carrying the column name and the compared value. -/
inductive UnaryExpr (V : Type) where
  | gt (col : String) (v : V)
  | lt (col : String) (v : V)
  | gte (col : String) (v : V)
  | lte (col : String) (v : V)
  | like (col : String) (v : V)
  | ilike (col : String) (v : V)
  deriving DecidableEq, Repr

/-- The recognized-operator dispatch inside `get_unary_expressions`
(filters.py lines 52-63): the six `if`/`elif` branches append one expression;
any other operator appends nothing. -/
def unaryExprOfOperator {V : Type} (col operator : String) (v : V) :
    Option (UnaryExpr V) :=
  if operator = "gt" then some (.gt col v)
  else if operator = "lt" then some (.lt col v)
  else if operator = "gte" then some (.gte col v)
  else if operator = "lte" then some (.lte col v)
  else if operator = "contains" then some (.like col v)
  else if operator = "icontains" then some (.ilike col v)
  else none

/-- Python `key.split("__")` on the character list: split at each
non-overlapping occurrence of two consecutive underscores, left to right. -/
def splitDunderAux : List Char → List Char → List (List Char)
  | [], acc => [acc.reverse]
  | '_' :: '_' :: rest, acc => acc.reverse :: splitDunderAux rest []
  | c :: rest, acc => splitDunderAux rest (c :: acc)

/-- Python `key.split(self.separator)` with `separator = "__"`
(filters.py line 6 and line 49). -/
def pySplitDunder (s : String) : List String :=
  (splitDunderAux s.data []).map String.mk

/-- `ManagerFilter.get_unary_expressions` (filters.py lines 45-66) over the
range-filter items.  Each key is split on `"__"`; Python's two-name unpacking
raises `ValueError` unless the split has exactly two parts; then
`getattr(self.model, field_name)` raises `AttributeError` when the field is
not an attribute of the model (this happens before the operator is ever
inspected); finally the operator dispatch appends at most one expression. -/
def get_unary_expressions {V : Type} (modelAttrs : List String) :
    List (String × V) → Except String (List (UnaryExpr V))
  | [] => .ok []
  | (key, value) :: rest =>
    match pySplitDunder key with
    | [field_name, operator] =>
      if field_name ∈ modelAttrs then
        match get_unary_expressions modelAttrs rest with
        | .error m => .error m
        | .ok es =>
          match unaryExprOfOperator field_name operator value with
          | some e => .ok (e :: es)
          | none => .ok es
      else .error ("AttributeError: " ++ field_name)
    | _ => .error ("ValueError: not enough values to unpack for " ++ key)

/-! ## Generic list/object service (src/server/src/core/utils/generic_views.py) -/

/-- A request URL, abstracted to its non-query part and its query parameters
in order (`urlparse`/`parse_qs` in `_generate_pagination_links`). -/
structure ReqUrl where
  base : String
  params : List (String × String)
  deriving DecidableEq, Repr

/-- `params["page"] = [n]` on a Python dict: replace the value of an existing
`page` key in place, otherwise append it. -/
def setParam : List (String × String) → String → String → List (String × String)
  | [], key, v => [(key, v)]
  | (k, w) :: rest, key, v =>
    if k = key then (k, v) :: rest else (k, w) :: setParam rest key v

/-- Rebuilding the request URL with the `page` query parameter set to `n`
(`parsed_url._replace(query=urlencode(params, doseq=True)).geturl()`). -/
def setPage (u : ReqUrl) (n : Nat) : ReqUrl :=
  { u with params := setParam u.params "page" (toString n) }

/-- Python `-(-total // page_size)`: ceiling division.  For the `Nat`
arguments used here (and `page_size > 0`, guaranteed by the caller
`ListBaseService.list`, which routes `size <= 0` elsewhere) it equals
`(total + page_size - 1) / page_size`. -/
def total_pages (total page_size : Nat) : Nat :=
  (total + page_size - 1) / page_size

/-- `ListBaseService._generate_pagination_links` (generic_views.py lines
90-107): `next` is the request URL with `page` set to `current_page + 1` when
`current_page < total_pages`, else `None`; `previous` is the URL with `page`
set to `current_page - 1` when `current_page > 1`, else `None`. -/
def generate_pagination_links (current_page page_size total : Nat) (url : ReqUrl) :
    Option ReqUrl × Option ReqUrl :=
  let tp := total_pages total page_size
  let next_page := if current_page < tp then some (setPage url (current_page + 1)) else none
  let previous_page := if 1 < current_page then some (setPage url (current_page - 1)) else none
  (next_page, previous_page)

/-- `PaginationParams` as produced by `default_pagination_params`
(responses.py lines 104-117): `page` is validated with `ge=1` and `size` with
`ge=0, le=500`; requests outside those bounds are rejected before the service
runs.  `Nat` already captures `ge=0`. -/
structure PaginationParams where
  page : Nat
  size : Nat
  deriving DecidableEq, Repr

/-- The validation constraints on `PaginationParams`: `page >= 1` and
`0 <= size <= 500`. -/
def PaginationParams.valid (p : PaginationParams) : Bool :=
  1 ≤ p.page && p.size ≤ 500

/-- `ListBaseService._apply_pagination` via the external pagination library
(`fastapi_pagination.ext.sqlalchemy.paginate`): a counted, offset/limit-style
page fetch (spec section 4.2) — items are the slice
`[(page-1)*size, (page-1)*size + size)` of the rows matching the query, and
`total` is the full matching row count. -/
def apply_pagination {ρ : Type} (matching : List ρ) (page size : Nat) :
    List ρ × Nat :=
  ((matching.drop ((page - 1) * size)).take size, matching.length)

/-- The `{"links": _, "count": _, "data": _}` dict built by
`ListBaseService._build_response`. -/
structure ListResponseData (σ : Type) where
  links : Option ReqUrl × Option ReqUrl
  count : Nat
  data : List σ
  deriving DecidableEq, Repr

/-- `ListBaseService._process_all` (generic_views.py lines 141-144): fetch
every matching row, transform each to its schema, report
`count = len(data)`; `_build_response` defaults leave both links `None`. -/
def process_all {ρ σ : Type} (transform_to_schema : ρ → σ) (matching : List ρ) :
    ListResponseData σ :=
  let data := matching.map transform_to_schema
  { links := (none, none), count := data.length, data := data }

/-- `ListBaseService._process_list` (generic_views.py lines 125-139):
paginate the matching rows, transform the page items, and attach the
navigation links computed from the page number and the total. -/
def process_list {ρ σ : Type} (transform_to_schema : ρ → σ) (matching : List ρ)
    (pagination_params : PaginationParams) (url : ReqUrl) : ListResponseData σ :=
  let page_info := apply_pagination matching pagination_params.page pagination_params.size
  let data := page_info.1.map transform_to_schema
  let total := page_info.2
  let links := generate_pagination_links pagination_params.page pagination_params.size total url
  { links := links, count := total, data := data }

/-- `ListBaseService.list` (generic_views.py lines 146-152): `size <= 0`
(for `Nat`: `size = 0`) returns the whole result set via `_process_all`,
otherwise a page via `_process_list`; either way the data is wrapped by
`create_envelope_response` with message `"Retrive service"`, HTTP 200 and
`successful=True`.  The rows matching the filtered query are passed in as
`matching`. -/
def ListBaseService_list {ρ σ : Type} (transform_to_schema : ρ → σ)
    (matching : List ρ) (pagination_params : PaginationParams) (url : ReqUrl) :
    EnvelopeResponse (EnvelopeResponseBody (Option ReqUrl × Option ReqUrl) σ) :=
  let data :=
    if pagination_params.size = 0 then process_all transform_to_schema matching
    else process_list transform_to_schema matching pagination_params url
  create_envelope_response (some data.data) (some data.links) (some data.count)
    "Retrive service" 200 true

/-! ## Authorization (src/server/src/core/utils/autorization.py) -/

/-- The configured secrets `ROOT_API_KEY` and `ROOT_SERVICE_NAME` from the
settings object. -/
structure AuthSettings where
  ROOT_API_KEY : String
  ROOT_SERVICE_NAME : String
  deriving DecidableEq, Repr

/-- `NotAuthorizationException` (exceptions.py lines 104-117): a
`BaseAppException` with `error_key="NotAuthorization"`, status 401, message
and `to_dict()` of the form
`{"endpoint": f"Dont autorization to resource {resource}"}`. -/
def NotAuthorizationException (resource : String) : Exn :=
  .appExc "NotAuthorization" 401
    [("endpoint", "Dont autorization to resource " ++ resource)]
    ("Dont autorization to resource " ++ resource)

/-- `_check_root_authorization` (autorization.py lines 33-54): raises
`NotAuthorizationException(resource="/api/v1/services")` unless both header
values equal the configured secrets; otherwise returns `True`. -/
def check_root_authorization (settings : AuthSettings)
    (X_API_Key X_Service_Name : String) : Except Exn Bool :=
  if X_API_Key ≠ settings.ROOT_API_KEY ∨ X_Service_Name ≠ settings.ROOT_SERVICE_NAME then
    .error (NotAuthorizationException "/api/v1/services")
  else .ok true

/-! ## ORM layer (src/server/src/core/utils/orm.py) and object fetch -/

/-- A persisted row of a model inheriting `BaseModelClass`
(src/server/src/models/base_model.py): an `id`, the `is_removed` soft-delete
flag, and the remaining column data abstracted as one field. -/
structure OrmRecord where
  id : Nat
  is_removed : Bool
  data : String
  deriving DecidableEq, Repr

/-- The stored table, in insertion order. -/
abbrev OrmTable := List OrmRecord

/-- `Manager.__get__` (orm.py lines 17-22): the default `objects` manager
starts from `select(cls)` and, since `BaseModelClass` has the `is_removed`
attribute, adds `where(cls.is_removed.is_(False))`.  The rows produced by
executing that default query. -/
def Manager_default_query (table : OrmTable) : List OrmRecord :=
  table.filter fun r => !r.is_removed

/-- `QueryModel.delete` (orm.py lines 122-127) applied to the record with the
given id: always sets `is_removed = True` on it; with `hard=True` the record
is additionally deleted from the session (removed from storage). -/
def QueryModel_delete (table : OrmTable) (rid : Nat) (hard : Bool) : OrmTable :=
  let flagged := table.map fun r =>
    if r.id = rid then { r with is_removed := true } else r
  if hard then flagged.filter (fun r => r.id ≠ rid) else flagged

/-- `Session.get(model, id)`: the stored row with the given primary key, if
any. -/
def session_get (table : OrmTable) (rid : Nat) : Option OrmRecord :=
  table.find? fun r => r.id = rid

/-- `ObjectBaseService.get_object` (generic_views.py lines 80-86): look the
instance up by id; when absent, raise
`NoResultFound(f"There is no {tablename} with this ID: {id}")`. -/
def get_object (tablename : String) (table : OrmTable) (rid : Nat) :
    Except Exn OrmRecord :=
  match session_get table rid with
  | some inst => .ok inst
  | none =>
    .error (.noResultFound
      ("There is no " ++ tablename ++ " with this ID: " ++ toString rid))

/-! ## Theorems -/

/-- C1, counterexample: `create_envelope_response` called with its default
arguments (exactly what `BaseService.create_response` does) yields an
envelope with `successful = false` whose `errors` field is null and whose
`body` is non-null — contradicting both `errors == null ⇒ successful` and
`¬successful ⇒ body == null`. -/
theorem C1_counterexample :
    (@create_envelope_response Unit Unit (some []) none none
        "INTERNAL_SERVER_ERROR" 500 false).successful = false ∧
    (@create_envelope_response Unit Unit (some []) none none
        "INTERNAL_SERVER_ERROR" 500 false).errors = none ∧
    (@create_envelope_response Unit Unit (some []) none none
        "INTERNAL_SERVER_ERROR" 500 false).body ≠ none := by
  refine ⟨rfl, rfl, by simp [create_envelope_response]⟩

/-- C1, amended: every envelope built by `create_envelope_response` has null
`errors` and a non-null `body` regardless of the `successful` flag, and every
envelope built by the catcher middleware has `successful = false`, non-null
`errors` and null `body`.  Hence `successful = true` implies `errors = null`
for both builders, but null `errors` does not imply `successful`, and
`successful = false` does not force a null body. -/
theorem C1_envelope_invariants {Λ ρ : Type} (data : Option (List ρ))
    (links : Option Λ) (count : Option Nat) (message : String)
    (status_code : Nat) (successful : Bool) (e : Exn) :
    (create_envelope_response data links count message status_code successful).errors
        = none ∧
    (create_envelope_response data links count message status_code successful).body
        ≠ none ∧
    ((create_envelope_response data links count message status_code successful).successful
        = true →
      (create_envelope_response data links count message status_code successful).errors
        = none) ∧
    (dispatch e).successful = false ∧
    (dispatch e).errors ≠ none ∧
    (dispatch e).body = none := by
  refine ⟨rfl, by simp [create_envelope_response], fun _ => rfl, rfl, ?_, rfl⟩
  simp [dispatch]

/-- C1, witness for the amended theorem at a success envelope and a generic
exception. -/
theorem C1_envelope_invariants_witness :
    (@create_envelope_response Unit Unit (some []) none none "m" 200 true).errors
        = none ∧
    (dispatch (.other "boom")).errors ≠ none :=
  ⟨(@C1_envelope_invariants Unit Unit (some []) none none "m" 200 true
      (.other "boom")).2.2.1 rfl,
   (@C1_envelope_invariants Unit Unit (some []) none none "m" 200 true
      (.other "boom")).2.2.2.2.1⟩

/-- C2: at the failing input `HTTPException(status_code=418, detail="teapot")`
the catcher middleware answers with status 500 and detail built from
`str(e)`, not with the exception's own status and detail: the pass-through
assignment of the first `isinstance(e, HTTPException)` block is dead code,
overwritten by the `else` of the following `if`/`elif` chain. -/
theorem C2_httpexception_not_passed_through :
    (dispatch (.httpExc 418 "teapot")).status_code = 500 ∧
    (dispatch (.httpExc 418 "teapot")).errors
        = some (.dict [("detail", "418: teapot")]) ∧
    (dispatch (.httpExc 418 "teapot")).status_code ≠ 418 := by
  refine ⟨rfl, by decide, by decide⟩

/-- C7: the authorization check returns `True` exactly when both header
values equal the configured secrets; any mismatch raises
`NotAuthorizationException` for resource `/api/v1/services`, which the
catcher turns into HTTP 401 with detail
`{endpoint: "Dont autorization to resource /api/v1/services"}`. -/
theorem C7_authorization_check (settings : AuthSettings) (k s : String) :
    (check_root_authorization settings k s = .ok true ↔
      (k = settings.ROOT_API_KEY ∧ s = settings.ROOT_SERVICE_NAME)) ∧
    ((k ≠ settings.ROOT_API_KEY ∨ s ≠ settings.ROOT_SERVICE_NAME) →
      check_root_authorization settings k s =
        .error (NotAuthorizationException "/api/v1/services") ∧
      (dispatch (NotAuthorizationException "/api/v1/services")).status_code = 401 ∧
      (dispatch (NotAuthorizationException "/api/v1/services")).errors =
        some (.dict
          [("endpoint", "Dont autorization to resource /api/v1/services")])) := by
  by_cases hc : k ≠ settings.ROOT_API_KEY ∨ s ≠ settings.ROOT_SERVICE_NAME
  · have hres : check_root_authorization settings k s =
        .error (NotAuthorizationException "/api/v1/services") := by
      simp only [check_root_authorization, if_pos hc]
    refine ⟨⟨fun h => ?_, fun h => ?_⟩, fun _ => ⟨hres, rfl, rfl⟩⟩
    · rw [hres] at h; cases h
    · rcases hc with hc | hc
      · exact absurd h.1 hc
      · exact absurd h.2 hc
  · have hc' := hc
    push_neg at hc'
    have hres : check_root_authorization settings k s = .ok true := by
      simp only [check_root_authorization, if_neg hc]
    exact ⟨⟨fun _ => hc', fun _ => hres⟩, fun h => absurd h hc⟩

/-- C7, witness: with secrets `("key", "svc")` and a mismatching API key the
check raises the 401 `NotAuthorization` failure. -/
theorem C7_authorization_check_witness :
    (("bad" : String) ≠ "key" ∨ ("svc" : String) ≠ "svc") ∧
    check_root_authorization ⟨"key", "svc"⟩ "bad" "svc" =
      .error (NotAuthorizationException "/api/v1/services") :=
  ⟨by decide,
   ((C7_authorization_check ⟨"key", "svc"⟩ "bad" "svc").2 (by decide)).1⟩

/-- C8: for every identifier, `get_object` either returns exactly the stored
instance or raises `NoResultFound`, never an empty success; the catcher
converts that failure into HTTP 404 with detail
`{detail: "No found: <message>"}`. -/
theorem C8_get_object_total (tablename : String) (table : OrmTable) (rid : Nat) :
    (∃ inst, get_object tablename table rid = .ok inst ∧
        session_get table rid = some inst) ∨
    (∃ msg, get_object tablename table rid = .error (.noResultFound msg) ∧
      (dispatch (.noResultFound msg)).status_code = 404 ∧
      (dispatch (.noResultFound msg)).errors
          = some (.dict [("detail", "No found: " ++ msg)]) ∧
      (dispatch (.noResultFound msg)).successful = false) := by
  rcases h : session_get table rid with _ | inst
  · exact .inr ⟨"There is no " ++ tablename ++ " with this ID: " ++ toString rid,
      by simp [get_object, h], rfl, rfl, rfl⟩
  · exact .inl ⟨inst, by simp [get_object, h], rfl⟩

/-- `QueryModel_delete` with `hard=False` unfolded: only the flag of the
matching row changes. -/
theorem QueryModel_delete_soft (table : OrmTable) (rid : Nat) :
    QueryModel_delete table rid false =
      table.map (fun r => if r.id = rid then { r with is_removed := true } else r) := by
  simp [QueryModel_delete]

/-- `QueryModel_delete` with `hard=True` unfolded: the matching row is also
filtered out of storage. -/
theorem QueryModel_delete_hard (table : OrmTable) (rid : Nat) :
    QueryModel_delete table rid true =
      (table.map (fun r => if r.id = rid then { r with is_removed := true } else r)).filter
        (fun r => decide (r.id ≠ rid)) := by
  simp [QueryModel_delete]

/-- C9: rows whose `is_removed` flag is set are excluded from the default
`objects` manager query; a soft delete only sets the flag (the row keeps its
place in storage) and makes the row invisible to the default query, while a
hard delete removes the row from storage. -/
theorem C9_soft_and_hard_delete (table : OrmTable) (rid : Nat) :
    (∀ r ∈ Manager_default_query table, r.is_removed = false) ∧
    (QueryModel_delete table rid false).map OrmRecord.id = table.map OrmRecord.id ∧
    (∀ r ∈ table, r.id = rid →
      { r with is_removed := true } ∈ QueryModel_delete table rid false) ∧
    (∀ q ∈ Manager_default_query (QueryModel_delete table rid false), q.id ≠ rid) ∧
    (∀ q ∈ QueryModel_delete table rid true, q.id ≠ rid) := by
  refine ⟨?_, ?_, ?_, ?_, ?_⟩
  · intro r hr
    simp [Manager_default_query, List.mem_filter] at hr
    exact hr.2
  · rw [QueryModel_delete_soft, List.map_map]
    refine List.map_congr_left fun r _ => ?_
    by_cases h : r.id = rid <;> simp [h]
  · intro r hr h
    rw [QueryModel_delete_soft]
    exact List.mem_map.mpr ⟨r, hr, by rw [if_pos h]⟩
  · intro q hq
    rw [QueryModel_delete_soft] at hq
    simp only [Manager_default_query, List.mem_filter, List.mem_map] at hq
    obtain ⟨⟨r, hr, hfr⟩, hflag⟩ := hq
    intro hid
    by_cases h : r.id = rid
    · rw [if_pos h] at hfr
      rw [← hfr] at hflag
      simp at hflag
    · rw [if_neg h] at hfr
      rw [← hfr] at hid
      exact h hid
  · intro q hq
    rw [QueryModel_delete_hard, List.mem_filter] at hq
    simpa using hq.2

/-- C9, witness: in a two-row table, soft-deleting row 1 keeps it in storage
with the flag set. -/
theorem C9_soft_and_hard_delete_witness :
    (⟨1, false, "a"⟩ : OrmRecord) ∈ ([⟨1, false, "a"⟩, ⟨2, false, "b"⟩] : OrmTable) ∧
    ({ (⟨1, false, "a"⟩ : OrmRecord) with is_removed := true }
      ∈ QueryModel_delete [⟨1, false, "a"⟩, ⟨2, false, "b"⟩] 1 false) :=
  ⟨by decide,
   (C9_soft_and_hard_delete [⟨1, false, "a"⟩, ⟨2, false, "b"⟩] 1).2.2.1
     ⟨1, false, "a"⟩ (by decide) rfl⟩

/-- Characterization of the `clean_order_by_keys` loop: starting from any
accumulator, the cleaned list collects the keys whose dash-stripped form is
nonempty and a valid column, the invalid list those whose form is nonempty
and not valid, in order. -/
theorem clean_order_by_foldl (valid_keys keys : List String) :
    ∀ acc : List String × List String,
      keys.foldl (clean_order_by_step valid_keys) acc =
        (acc.1 ++ keys.filter (fun k =>
            decide (removeFirstDash k ≠ "" ∧ removeFirstDash k ∈ valid_keys)),
         acc.2 ++ keys.filter (fun k =>
            decide (removeFirstDash k ≠ "" ∧ removeFirstDash k ∉ valid_keys))) := by
  induction keys with
  | nil => intro acc; simp
  | cons k keys ih =>
    intro acc
    rw [List.foldl_cons, ih]
    by_cases h1 : removeFirstDash k = ""
    · simp [clean_order_by_step, h1, List.filter_cons]
    · by_cases h2 : removeFirstDash k ∈ valid_keys
      · simp [clean_order_by_step, h1, h2, List.filter_cons]
      · simp [clean_order_by_step, h1, h2, List.filter_cons]

/-- `clean_order_by_keys` in closed form, via `clean_order_by_foldl`. -/
theorem clean_order_by_keys_eq (valid_keys keys : List String) :
    clean_order_by_keys valid_keys keys =
      (if keys.filter (fun k =>
            decide (removeFirstDash k ≠ "" ∧ removeFirstDash k ∉ valid_keys)) = []
       then .ok (keys.filter (fun k =>
            decide (removeFirstDash k ≠ "" ∧ removeFirstDash k ∈ valid_keys)))
       else .error ⟨keys.filter (fun k =>
            decide (removeFirstDash k ≠ "" ∧ removeFirstDash k ∉ valid_keys)),
          valid_keys⟩) := by
  simp [clean_order_by_keys, clean_order_by_foldl]

/-- C4, counterexample: the entry `"a-b"` has no leading `-`, so per the
claim it should count as invalid for a model whose only column is `"ab"` and
trigger a `FilterError` — but the code removes the first `-` anywhere
(`key.replace("-", "", 1)`), finds `"ab"` valid, and accepts the ordering
with no error. -/
theorem C4_counterexample :
    stripLeadingDash "a-b" = "a-b" ∧
    ("a-b" : String) ∉ ["ab"] ∧
    clean_order_by_keys ["ab"] ["a-b"] = .ok ["a-b"] := by
  refine ⟨rfl, by decide, rfl⟩

/-- C4, amended: when some ordering entry, after removing its first `-`, is a
nonempty name outside the valid column set, `clean_order_by_keys` fails
atomically with a `FilterException` whose `invalid_keys` are exactly the
offending entries (in order), whose `valid_keys` is the full valid set, and
whose detail maps each invalid entry to a message naming the full valid
set — no ordering list is returned. -/
theorem C4_invalid_ordering_fails_atomically (valid_keys keys : List String)
    (h : ∃ k ∈ keys, removeFirstDash k ≠ "" ∧ removeFirstDash k ∉ valid_keys) :
    ∃ p, clean_order_by_keys valid_keys keys = .error p ∧
      p.invalid_keys = keys.filter (fun k =>
        decide (removeFirstDash k ≠ "" ∧ removeFirstDash k ∉ valid_keys)) ∧
      p.valid_keys = valid_keys ∧
      (FilterException_to_dict p).map Prod.fst = p.invalid_keys.eraseDups ∧
      ∀ d ∈ FilterException_to_dict p,
        d.2 = "Choose one of " ++ toString valid_keys := by
  obtain ⟨k, hk, hne, hnm⟩ := h
  have hmem : k ∈ keys.filter (fun k =>
      decide (removeFirstDash k ≠ "" ∧ removeFirstDash k ∉ valid_keys)) :=
    List.mem_filter.mpr ⟨hk, by simp [hne, hnm]⟩
  have hnil := List.ne_nil_of_mem hmem
  refine ⟨⟨_, valid_keys⟩, ?_, rfl, rfl, ?_, ?_⟩
  · rw [clean_order_by_keys_eq, if_neg hnil]
  · simp only [FilterException_to_dict, List.map_map]
    refine (List.map_congr_left fun a _ => rfl).trans (List.map_id _)
  · intro d hd
    simp only [FilterException_to_dict, List.mem_map] at hd
    obtain ⟨k', _, rfl⟩ := hd
    rfl

/-- C4, witness: ordering `["-bogus", "created"]` against the single valid
column `created` fails with `FilterException(["-bogus"], ["created"])`. -/
theorem C4_invalid_ordering_fails_atomically_witness :
    (∃ k ∈ ["-bogus", "created"],
      removeFirstDash k ≠ "" ∧ removeFirstDash k ∉ ["created"]) ∧
    clean_order_by_keys ["created"] ["-bogus", "created"]
      = .error ⟨["-bogus"], ["created"]⟩ := by
  have hhyp : ∃ k ∈ ["-bogus", "created"],
      removeFirstDash k ≠ "" ∧ removeFirstDash k ∉ ["created"] :=
    ⟨"-bogus", by decide, by decide, by decide⟩
  obtain ⟨p, hp, hinv, hval, -, -⟩ :=
    C4_invalid_ordering_fails_atomically ["created"] ["-bogus", "created"] hhyp
  have hcalc : (["-bogus", "created"].filter (fun k =>
      decide (removeFirstDash k ≠ "" ∧ removeFirstDash k ∉ ["created"])))
      = ["-bogus"] := by decide
  refine ⟨hhyp, ?_⟩
  rw [hp]
  cases p
  simp only at hinv hval
  rw [hinv, hcalc, hval]

/-- C10: ordering entries that become empty after removing their first `-`
(the entry `"-"` itself, or an empty entry) are silently skipped:
`clean_order_by_keys` gives the same answer as if those entries were absent
(so they yield no sort directive, are never reported invalid and never cause
a `FilterException`), and the ordering `["-"]` alone yields the empty
directive list with no error. -/
theorem C10_empty_after_strip_skipped (valid_keys keys : List String) :
    clean_order_by_keys valid_keys keys =
      clean_order_by_keys valid_keys
        (keys.filter fun k => !(removeFirstDash k == "")) ∧
    clean_order_by_keys valid_keys ["-"] = .ok [] := by
  constructor
  · rw [clean_order_by_keys_eq, clean_order_by_keys_eq, List.filter_filter,
      List.filter_filter]
    have e1 : ∀ k ∈ keys,
        (decide (removeFirstDash k ≠ "" ∧ removeFirstDash k ∉ valid_keys)
          && !(removeFirstDash k == ""))
        = decide (removeFirstDash k ≠ "" ∧ removeFirstDash k ∉ valid_keys) := by
      intro k _
      by_cases h : removeFirstDash k = "" <;> simp [h]
    have e2 : ∀ k ∈ keys,
        (decide (removeFirstDash k ≠ "" ∧ removeFirstDash k ∈ valid_keys)
          && !(removeFirstDash k == ""))
        = decide (removeFirstDash k ≠ "" ∧ removeFirstDash k ∈ valid_keys) := by
      intro k _
      by_cases h : removeFirstDash k = "" <;> simp [h]
    rw [List.filter_congr e1, List.filter_congr e2]
  · have hdash : removeFirstDash "-" = "" := rfl
    rw [clean_order_by_keys_eq]
    simp [hdash]

/-- C3, counterexample: the key `bogus__badop` has the form
`field__operator` with an unrecognized operator, yet on a model whose only
attribute is `amount` it raises (`getattr(self.model, field_name)` runs
before the operator is inspected and fails with `AttributeError`), instead
of contributing nothing without error. -/
theorem C3_counterexample :
    (pySplitDunder "bogus__badop" = ["bogus", "badop"]) ∧
    ("badop" : String) ∉ ["gt", "lt", "gte", "lte", "contains", "icontains"] ∧
    @get_unary_expressions Nat ["amount"] [("bogus__badop", 100)]
      = .error "AttributeError: bogus" := by
  refine ⟨by decide, by decide, rfl⟩

/-- C3, amended: over range filters whose keys split into exactly one field
and one operator with the field an existing model attribute, the produced
expression list is exactly the keys' images under the six-operator dispatch:
an unrecognized operator suffix contributes no predicate and raises no
error, and only the six recognized operators ever produce a predicate. -/
theorem C3_unknown_operator_dropped {V : Type} (modelAttrs : List String)
    (range_filters : List (String × V))
    (h : ∀ kv ∈ range_filters,
      ∃ f op, pySplitDunder kv.1 = [f, op] ∧ f ∈ modelAttrs) :
    get_unary_expressions modelAttrs range_filters =
      .ok (range_filters.filterMap fun kv =>
        match pySplitDunder kv.1 with
        | [f, op] => unaryExprOfOperator f op kv.2
        | _ => none) := by
  induction range_filters with
  | nil => rfl
  | cons kv rest ih =>
    obtain ⟨f, op, hsplit, hmem⟩ := h kv (List.mem_cons_self _ _)
    have ihh := ih (fun kv' h' => h kv' (List.mem_cons_of_mem _ h'))
    obtain ⟨k, v⟩ := kv
    simp only at hsplit
    simp only [get_unary_expressions, hsplit, if_pos hmem, ihh,
      List.filterMap_cons]
    cases unaryExprOfOperator f op v <;> rfl

/-- C3, witness for the amended theorem: with attribute `amount`, the key
`amount__badop` is dropped silently while `amount__gt` yields a predicate. -/
theorem C3_unknown_operator_dropped_witness :
    (∀ kv ∈ [("amount__badop", (5 : Nat)), ("amount__gt", 3)],
      ∃ f op, pySplitDunder kv.1 = [f, op] ∧ f ∈ ["amount"]) ∧
    get_unary_expressions ["amount"] [("amount__badop", (5 : Nat)), ("amount__gt", 3)]
      = .ok [.gt "amount" 3] := by
  have h : ∀ kv ∈ [("amount__badop", (5 : Nat)), ("amount__gt", 3)],
      ∃ f op, pySplitDunder kv.1 = [f, op] ∧ f ∈ ["amount"] := by
    intro kv hkv
    simp only [List.mem_cons, List.not_mem_nil, or_false] at hkv
    rcases hkv with rfl | rfl
    · exact ⟨"amount", "badop", rfl, by decide⟩
    · exact ⟨"amount", "gt", rfl, by decide⟩
  refine ⟨h, ?_⟩
  rw [C3_unknown_operator_dropped ["amount"] _ h]
  rfl

/-- C6: with a positive page size, page 1 of a result that fits in one page
has neither link; any page above 1 has a previous link; the next link exists
exactly when the current page is strictly below the last page
(`-(-total // page_size)` pages in all); and each link is the request URL
with only the `page` parameter moved one up or one down. -/
theorem C6_pagination_links (current_page page_size total : Nat) (url : ReqUrl)
    (hps : 0 < page_size) :
    (current_page = 1 → total ≤ page_size →
      generate_pagination_links current_page page_size total url = (none, none)) ∧
    (1 < current_page →
      (generate_pagination_links current_page page_size total url).2 ≠ none) ∧
    ((generate_pagination_links current_page page_size total url).1 ≠ none ↔
      current_page < total_pages total page_size) ∧
    (∀ l, (generate_pagination_links current_page page_size total url).1 = some l →
      l = setPage url (current_page + 1)) ∧
    (∀ l, (generate_pagination_links current_page page_size total url).2 = some l →
      l = setPage url (current_page - 1)) := by
  simp only [generate_pagination_links]
  refine ⟨?_, ?_, ?_, ?_, ?_⟩
  · intro h1 hle
    subst h1
    have htp : total_pages total page_size < 2 := by
      rw [total_pages, Nat.div_lt_iff_lt_mul hps]
      omega
    rw [if_neg (by omega : ¬ 1 < total_pages total page_size),
      if_neg (by omega : ¬ (1 : Nat) < 1)]
  · intro h2
    simp [if_pos h2]
  · by_cases hc : current_page < total_pages total page_size <;> simp [hc]
  · intro l hl
    by_cases hc : current_page < total_pages total page_size
    · rw [if_pos hc] at hl
      exact (Option.some.inj hl).symm
    · rw [if_neg hc] at hl
      cases hl
  · intro l hl
    by_cases hc : 1 < current_page
    · rw [if_pos hc] at hl
      exact (Option.some.inj hl).symm
    · rw [if_neg hc] at hl
      cases hl

/-- C6, witness: page 1 of 7 rows with page size 10 (a one-page result)
yields no links. -/
theorem C6_pagination_links_witness :
    (0 < 10) ∧
    generate_pagination_links 1 10 7 ⟨"/api/v1/items", [("page", "1")]⟩
      = (none, none) :=
  ⟨by decide,
   (C6_pagination_links 1 10 7 ⟨"/api/v1/items", [("page", "1")]⟩
      (by decide)).1 rfl (by decide)⟩

/-- C5: for validated pagination parameters (`page ≥ 1`, `0 ≤ size ≤ 500`),
the list service answers 200/successful; `size = 0` returns every matching
row with `count` the number of matching rows and no slicing, while
`size = N > 0` returns `count` equal to the total matching rows and at most
`N` results; the accepted size never exceeds 500. -/
theorem C5_list_pagination {ρ σ : Type} (transform_to_schema : ρ → σ)
    (matching : List ρ) (p : PaginationParams) (url : ReqUrl)
    (hv : p.valid = true) :
    (ListBaseService_list transform_to_schema matching p url).status_code = 200 ∧
    (ListBaseService_list transform_to_schema matching p url).successful = true ∧
    p.size ≤ 500 ∧
    (p.size = 0 →
      ∃ b, (ListBaseService_list transform_to_schema matching p url).body = some b ∧
        b.results = some (matching.map transform_to_schema) ∧
        b.count = some matching.length) ∧
    (0 < p.size →
      ∃ b rs,
        (ListBaseService_list transform_to_schema matching p url).body = some b ∧
        b.count = some matching.length ∧
        b.results = some rs ∧ rs.length ≤ p.size) := by
  refine ⟨rfl, rfl, ?_, ?_, ?_⟩
  · have h := hv
    simp only [PaginationParams.valid, Bool.and_eq_true, decide_eq_true_eq] at h
    exact h.2
  · intro h0
    refine ⟨⟨some (none, none), some (matching.map transform_to_schema).length,
      some (matching.map transform_to_schema)⟩, ?_, rfl, ?_⟩
    · simp [ListBaseService_list, create_envelope_response, h0, process_all]
    · simp
  · intro hpos
    have hne : ¬ p.size = 0 := by omega
    refine ⟨⟨some (generate_pagination_links p.page p.size matching.length url),
        some matching.length,
        some (((matching.drop ((p.page - 1) * p.size)).take p.size).map
          transform_to_schema)⟩,
      ((matching.drop ((p.page - 1) * p.size)).take p.size).map transform_to_schema,
      ?_, rfl, rfl, ?_⟩
    · simp [ListBaseService_list, create_envelope_response, hne, process_list,
        apply_pagination]
    · calc (((matching.drop ((p.page - 1) * p.size)).take p.size).map
            transform_to_schema).length
          = ((matching.drop ((p.page - 1) * p.size)).take p.size).length :=
            List.length_map _ _
      _ ≤ p.size := by
            rw [List.length_take]
            exact Nat.min_le_left _ _

/-- C5, witness: page 1 with size 2 over three matching rows reports the full
count 3 and at most two results. -/
theorem C5_list_pagination_witness :
    (PaginationParams.mk 1 2).valid = true ∧
    (ListBaseService_list (fun n : Nat => n) [10, 20, 30] ⟨1, 2⟩
      ⟨"/api/v1/items", []⟩).status_code = 200 :=
  ⟨by decide,
   (C5_list_pagination (fun n : Nat => n) [10, 20, 30] ⟨1, 2⟩
      ⟨"/api/v1/items", []⟩ (by decide)).1⟩
